import Mathlib

/-!
Shallow embedding of the content-addressed retrieval and caching layer of the
Blockchain-Based-File-Sharing-System repository (the IPFS service module:
`findFastestGateway`, `getPreferredGateway`, `uploadToFilecoin`,
`downloadFromFilecoin`, `trackCachedFile`, `cleanCache`, `removeCachedFile`).

The persisted AsyncStorage records are modelled as a `CacheState` structure;
JavaScript objects used as string-keyed dictionaries become association lists
that keep insertion order (assignment to an existing key keeps its position,
as in JS).  Network and filesystem effects are supplied by environment
records, and time (`Date.now()`) is an explicit parameter.  Byte sizes and
timestamps are naturals; the comparisons that can go negative in JS
(`timestamp > now - 3600000`, the 80 % hysteresis test) are computed in `Int`.
-/

namespace IpfsService

/-- Replace the value stored under `k`, keeping its position, or append a new
binding — the semantics of `obj[k] = v` on a JS object. -/
def setAssoc {β : Type} (l : List (String × β)) (k : String) (v : β) :
    List (String × β) :=
  if l.any (fun p => p.1 == k) then
    l.map (fun p => if p.1 == k then (k, v) else p)
  else l ++ [(k, v)]

/-- Remove every binding of `k` — the semantics of `delete obj[k]` (and of
`AsyncStorage.removeItem`). -/
def eraseAssoc {β : Type} (l : List (String × β)) (k : String) :
    List (String × β) :=
  l.filter (fun p => p.1 != k)

/-- Insert `a` into an already sorted list, after every element strictly
smaller and before the first element not smaller; with a strict comparison
this is the stable placement used by the JS `Array.sort` comparator. -/
def insSorted {α : Type} (lt : α → α → Bool) (a : α) : List α → List α
  | [] => [a]
  | b :: l => if lt b a then b :: insSorted lt a l else a :: b :: l

/-- Stable sort by a strict `Bool` comparison (the JS
`arr.sort((a, b) => a.k - b.k)` on distinct keys). -/
def sortBy {α : Type} (lt : α → α → Bool) (l : List α) : List α :=
  l.foldr (insSorted lt) []

/-- One row of the persisted cache index: `{ size, timestamp }`. -/
structure IndexEntry where
  size : Nat
  timestamp : Nat
deriving DecidableEq, Repr

/-- The persisted gateway speed-test record:
`{ timestamp, fastestGateway, allResults }`. -/
structure SpeedRecord where
  timestamp : Nat
  fastestGateway : String
  allResults : List (String × Nat)
deriving DecidableEq, Repr

/-- The AsyncStorage keys the module reads and writes, one field per key
namespace: per-cid blob cache (`ipfs_cache_` prefix), per-cid status cache
(`ipfs_status_` prefix), the cache index (`ipfs_cache_index`), the running
cache-size counter (`ipfs_cache_size`, a numeral string, so a natural),
the preferred-gateway pointer (`ipfs_preferred_gateway`) and the speed-test
record (`ipfs_gateway_speeds`).  `none` models an absent key. -/
structure CacheState where
  blobs : List (String × String)
  status : List (String × (Bool × Nat))
  index : List (String × IndexEntry)
  cacheSize : Option Nat
  preferred : Option String
  speedTest : Option SpeedRecord
deriving DecidableEq, Repr

/-- State in which no key has ever been written. -/
def emptyState : CacheState :=
  { blobs := [], status := [], index := [], cacheSize := none,
    preferred := none, speedTest := none }

/-- The module-level `CACHE_CONFIG` constants, kept as a parameter so the
spec scenarios that pin `maxItemCount` can be stated. -/
structure CacheConfig where
  maxCacheSize : Nat
  maxCacheAge : Nat
  maxCacheItems : Nat
deriving DecidableEq, Repr

/-- `CACHE_CONFIG` as defined in the source: 50 MB, 7 days, 100 items. -/
def CACHE_CONFIG : CacheConfig :=
  { maxCacheSize := 50 * 1024 * 1024
    maxCacheAge := 7 * 24 * 60 * 60 * 1000
    maxCacheItems := 100 }

/-- The static `IPFS_GATEWAYS` fallback list (no environment overrides). -/
def IPFS_GATEWAYS : List String :=
  ["https://ipfs.io/ipfs",
   "https://gateway.pinata.cloud/ipfs",
   "https://cloudflare-ipfs.com/ipfs",
   "https://ipfs.fleek.co/ipfs",
   "https://dweb.link/ipfs"]

/-- The default gateway `IPFS_GATEWAY_URL = IPFS_GATEWAYS[0]`. -/
def IPFS_GATEWAY_URL : String := IPFS_GATEWAYS.headD ""

/-- Size recorded in the index for `cid`, `0` when `cid` has no entry —
the `cacheIndex[cid] ? cacheIndex[cid].size : 0` read in `removeCachedFile`. -/
def indexedSize (st : CacheState) (cid : String) : Nat :=
  match st.index.lookup cid with
  | some e => e.size
  | none => 0

/-- Sum of the `size` fields over all index rows. -/
def indexSizeSum (st : CacheState) : Nat :=
  (st.index.map (fun p => p.2.size)).sum

/-- `removeCachedFile(cid)`: read the indexed size, remove the blob and
status records, drop the index row if present, and if the indexed size was
positive and a counter is persisted, store `Math.max(0, counter - size)`
(which on naturals is truncated subtraction). -/
def removeCachedFile (st : CacheState) (cid : String) : CacheState :=
  let fileSize := indexedSize st cid
  let st1 : CacheState :=
    { st with blobs := eraseAssoc st.blobs cid,
              status := eraseAssoc st.status cid }
  let st2 : CacheState :=
    if (st1.index.lookup cid).isSome then
      { st1 with index := eraseAssoc st1.index cid }
    else st1
  if 0 < fileSize then
    match st2.cacheSize with
    | some c => { st2 with cacheSize := some (c - fileSize) }
    | none => st2
  else st2

/-- The age sweep at the end of `cleanCache`: walk the time-ordered entries
and remove those with `timestamp < now - MAX_CACHE_AGE`, stopping at the
first entry inside the age bound. -/
def ageSweep (cfg : CacheConfig) (now : Nat) :
    List (String × IndexEntry) → CacheState → CacheState
  | [], st => st
  | e :: rest, st =>
    if (e.2.timestamp : Int) < (now : Int) - (cfg.maxCacheAge : Int) then
      ageSweep cfg now rest (removeCachedFile st e.1)
    else st

/-- The size-pressure loop of `cleanCache`: remove oldest entries, summing
the removed sizes, until `total - removed <= 0.8 * MAX_CACHE_SIZE`
(for integers, `x <= 0.8 * M` is exactly `5 * x <= 4 * M`). -/
def sizeCleanupLoop (cfg : CacheConfig) :
    List (String × IndexEntry) → Nat → Nat → CacheState → CacheState
  | [], _, _, st => st
  | e :: rest, total, removed, st =>
    let st1 := removeCachedFile st e.1
    let removed1 := removed + e.2.size
    if 5 * ((total : Int) - (removed1 : Int)) ≤ 4 * (cfg.maxCacheSize : Int) then
      st1
    else sizeCleanupLoop cfg rest total removed1 st1

/-- `cleanCache()`: sort the index rows oldest first; if the item count
exceeds `MAX_CACHE_ITEMS` remove the excess oldest rows and return early;
otherwise run the size-pressure loop when the persisted counter exceeds
`MAX_CACHE_SIZE`, then the age sweep over the same pre-sorted row list.
(When the index key has never been written the source returns at once;
that is the same outcome as running the body on the empty index.) -/
def cleanCache (cfg : CacheConfig) (now : Nat) (st : CacheState) : CacheState :=
  let entries := sortBy (fun a b => a.2.timestamp < b.2.timestamp) st.index
  if entries.length > cfg.maxCacheItems then
    ((entries.take (entries.length - cfg.maxCacheItems)).map (fun p => p.1)).foldl
      removeCachedFile st
  else
    let total := st.cacheSize.getD 0
    let st1 :=
      if total > cfg.maxCacheSize then sizeCleanupLoop cfg entries total 0 st
      else st
    ageSweep cfg now entries st1

/-- `trackCachedFile(cid, size)`: write `{size, timestamp: now}` under `cid`
in the index, add `size` to the persisted counter (absent counter reads as
`0`), and invoke `cleanCache` only when the updated counter exceeds
`MAX_CACHE_SIZE`. -/
def trackCachedFile (cfg : CacheConfig) (now : Nat) (st : CacheState)
    (cid : String) (size : Nat) : CacheState :=
  let total := st.cacheSize.getD 0 + size
  let st1 : CacheState :=
    { st with index := setAssoc st.index cid { size := size, timestamp := now },
              cacheSize := some total }
  if total > cfg.maxCacheSize then cleanCache cfg now st1 else st1

/-- Outcome of one gateway download attempt: the request threw
(`fail`, carrying the JS error message), `downloadAsync` resolved with an
empty result (the source then throws after reporting 90 %), or the file
arrived and was read back as the base64 string `data`. -/
inductive ARes where
  | fail (msg : String)
  | empty
  | ok (data : String)
deriving DecidableEq, Repr

/-- `true` exactly on a successful attempt. -/
def ARes.isOk : ARes → Bool
  | .ok _ => true
  | _ => false

/-- One download attempt: the `(totalBytesWritten, totalBytesExpectedToWrite)`
pairs passed to the progress callback before the attempt resolved, and its
outcome. -/
structure Attempt where
  events : List (Nat × Nat)
  res : ARes

/-- The ambient world of the download path: the current time, the speed-test
response of each gateway by list position (`none` is a timeout or connection
error; a pair is the HTTP status and the measured round-trip time), and the
download attempt observed from each gateway base URL for the requested cid. -/
structure NetEnv where
  now : Nat
  probe : Nat → Option (Nat × Nat)
  attempt : String → Attempt

/-- `Math.round (num / den)` for nonnegative rationals. -/
def jsRound (num den : Nat) : Nat := (2 * num + den) / (2 * den)

/-- Progress mapping of the preferred-gateway attempt:
`Math.min(Math.round(10 + progress * 80), 90)`. -/
def mapPreferredEvents (evs : List (Nat × Nat)) : List Nat :=
  evs.map (fun p => min (jsRound (10 * p.2 + 80 * p.1) p.2) 90)

/-- Progress mapping of a fallback-gateway attempt:
`Math.min(Math.round(20 + progress * 70), 90)`. -/
def mapFallbackEvents (evs : List (Nat × Nat)) : List Nat :=
  evs.map (fun p => min (jsRound (20 * p.2 + 70 * p.1) p.2) 90)

/-- The speed-test result list: each gateway is kept exactly when its probe
returned HTTP 200 or 206 (any other status, a timeout or a connection error
drops it without failing the probe), paired with its response time. -/
def probeResults (gws : List String) (env : NetEnv) : List (String × Nat) :=
  gws.enum.filterMap (fun p =>
    match env.probe p.1 with
    | some (s, t) => if s = 200 ∨ s = 206 then some (p.2, t) else none
    | none => none)

/-- The probe pass of `findFastestGateway` (lines issuing one ranged GET per
gateway): collect the responsive gateways, and if none responded return the
static default without persisting; otherwise sort ascending by response
time, persist `{timestamp: now, fastestGateway, allResults}` and return the
fastest.  The third component counts the network requests issued. -/
def runSpeedTest (gws : List String) (env : NetEnv) (st : CacheState) :
    String × CacheState × Nat :=
  let results := probeResults gws env
  if results.isEmpty then (gws.headD "", st, gws.length)
  else
    let sorted := sortBy (fun a b => a.2 < b.2) results
    let fastest := (sorted.headD ("", 0)).1
    let record : SpeedRecord :=
      { timestamp := env.now, fastestGateway := fastest, allResults := sorted }
    (fastest, { st with speedTest := some record }, gws.length)

/-- `findFastestGateway()`: reuse the persisted speed-test record when
`timestamp > now - 3600000` and its gateway field is truthy (non-empty);
otherwise run the probe pass. -/
def findFastestGateway (gws : List String) (env : NetEnv) (st : CacheState) :
    String × CacheState × Nat :=
  match st.speedTest with
  | some r =>
    if (r.timestamp : Int) > (env.now : Int) - 3600000 ∧ r.fastestGateway ≠ ""
    then (r.fastestGateway, st, 0)
    else runSpeedTest gws env st
  | none => runSpeedTest gws env st

/-- `getPreferredGateway(forceRefresh)`: on `forceRefresh` re-probe; else
return the persisted pointer whenever it is truthy (no freshness check);
else find the fastest gateway and persist it as the new pointer. -/
def getPreferredGateway (gws : List String) (env : NetEnv) (st : CacheState)
    (forceRefresh : Bool) : String × CacheState × Nat :=
  if forceRefresh then findFastestGateway gws env st
  else
    match st.preferred with
    | some g =>
      if g = "" then
        let r := findFastestGateway gws env st
        (r.1, { r.2.1 with preferred := some r.1 }, r.2.2)
      else (g, st, 0)
    | none =>
      let r := findFastestGateway gws env st
      (r.1, { r.2.1 with preferred := some r.1 }, r.2.2)

/-- The message of the error thrown when every gateway failed. -/
def exhaustedMsg : String :=
  "Failed to download from all IPFS gateways. Please try again later."

/-- The write-back after a successful download: store the base64 data under
the cid and track it in the index with size `base64Data.length * 0.75`
(base64 payloads have length a multiple of 4, so this is `3·len/4`). -/
def cacheDownloaded (cfg : CacheConfig) (now : Nat) (st : CacheState)
    (cid data : String) : CacheState :=
  trackCachedFile cfg now { st with blobs := setAssoc st.blobs cid data }
    cid (3 * data.length / 4)

/-- Observable outcome of `downloadFromFilecoin`: the returned data or thrown
error, the sequence of values passed to `onProgress`, the final persisted
state, and the number of network requests performed. -/
structure DlResult where
  out : Except String String
  progress : List Nat
  st : CacheState
  netCalls : Nat

/-- The `for` loop over `IPFS_GATEWAYS`: attempt each gateway in order; on
success write the cache entry, track it, promote this gateway to the
persisted preferred pointer, and finish at 100 %; on failure report the
retry marker `20 + (i+1)*3` and continue; when the list is exhausted throw
the fixed exhaustion error.  (`i` is the position in the full list.) -/
def fallbackLoop (cfg : CacheConfig) (env : NetEnv) (cid : String) :
    CacheState → List Nat → Nat → Nat → List String → DlResult
  | st, prog, calls, _, [] => ⟨.error exhaustedMsg, prog, st, calls⟩
  | st, prog, calls, i, g :: rest =>
    let att := env.attempt g
    let evs := mapFallbackEvents att.events
    match att.res with
    | .ok data =>
      let st1 := cacheDownloaded cfg env.now st cid data
      ⟨.ok data, prog ++ evs ++ [90, 100],
       { st1 with preferred := some g }, calls + 1⟩
    | .empty =>
      fallbackLoop cfg env cid st (prog ++ evs ++ [90, 20 + (i + 1) * 3])
        (calls + 1) (i + 1) rest
    | .fail _ =>
      fallbackLoop cfg env cid st (prog ++ evs ++ [20 + (i + 1) * 3])
        (calls + 1) (i + 1) rest

/-- The cache lookup at the top of `downloadFromFilecoin`: with
`skipCache = false` the stored blob is used only when the stored string is
truthy, so the empty string behaves like a miss. -/
def cacheHit (st : CacheState) (cid : String) (skipCache : Bool) :
    Option String :=
  if skipCache then none
  else
    match st.blobs.lookup cid with
    | some d => if d = "" then none else some d
    | none => none

/-- `downloadFromFilecoin(cid, onProgress, skipCache)`: report 5 %, serve a
cache hit at 100 % with no network activity; otherwise report 10 %, resolve
the preferred gateway and attempt it (progress mapped into 10–90 %); on
success write back, finish at 100 %; on any preferred-path failure run the
fallback loop over the full static list. -/
def downloadFromFilecoin (gws : List String) (cfg : CacheConfig)
    (env : NetEnv) (st : CacheState) (cid : String) (skipCache : Bool) :
    DlResult :=
  match cacheHit st cid skipCache with
  | some d => ⟨.ok d, [5, 100], st, 0⟩
  | none =>
    let r := getPreferredGateway gws env st false
    let att := env.attempt r.1
    let evs := mapPreferredEvents att.events
    match att.res with
    | .ok data =>
      ⟨.ok data, [5, 10] ++ evs ++ [90, 100],
       cacheDownloaded cfg env.now r.2.1 cid data, r.2.2 + 1⟩
    | .empty =>
      fallbackLoop cfg env cid r.2.1 ([5, 10] ++ evs ++ [90]) (r.2.2 + 1) 0 gws
    | .fail _ =>
      fallbackLoop cfg env cid r.2.1 ([5, 10] ++ evs) (r.2.2 + 1) 0 gws

/-- Environment of `uploadToFilecoin`: whether `FileSystem.getInfoAsync` on
the freshly staged file succeeds, the primary `POST {api}/add` outcome
(`Except.error` is a request failure; `Except.ok cid?` is an HTTP success
whose body did or did not carry a `Hash`/`hash`/`cid` field), whether Infura
credentials are configured, and the secondary Infura outcome. -/
structure UpEnv where
  getInfo : Except String Unit
  primary : Except String (Option String)
  hasInfuraCreds : Bool
  infura : Except String (Option String)

/-- `FileSystem.cacheDirectory` of the staging area. -/
def cacheDirectory : String := "file:///cache/"

/-- Observable outcome of `uploadToFilecoin`: the returned cid or thrown
error, and the files (path, contents) present in the staging directory. -/
structure UpResult where
  out : Except String String
  fs : List (String × String)

/-- The secondary path taken when the primary upload threw or returned no
cid: try Infura when credentials exist; on its success delete the staging
file and return the cid; on any other outcome delete the staging file and
throw the combined error, which the outer handler wraps once more. -/
def uploadInfuraFallback (env : UpEnv) (fs : List (String × String))
    (tempFilePath primaryErr : String) : UpResult :=
  let exhausted : UpResult :=
    ⟨.error ("IPFS upload failed: All IPFS upload attempts failed. Primary error: "
      ++ primaryErr),
     eraseAssoc fs tempFilePath⟩
  if env.hasInfuraCreds then
    match env.infura with
    | .ok (some cid) => ⟨.ok cid, eraseAssoc fs tempFilePath⟩
    | .ok none => exhausted
    | .error _ => exhausted
  else exhausted

/-- `uploadToFilecoin(fileData, fileName)`: stage the data as a temp file in
the cache directory, stat it, then attempt the primary upload and, on
failure, the credentialed secondary.  A `getInfoAsync` failure propagates
through the outer handler, which wraps the message but performs no staging
cleanup. -/
def uploadToFilecoin (env : UpEnv) (fs : List (String × String))
    (fileData fileName : String) : UpResult :=
  let tempFilePath := cacheDirectory ++ fileName
  let fs1 := setAssoc fs tempFilePath fileData
  match env.getInfo with
  | .error m => ⟨.error ("IPFS upload failed: " ++ m), fs1⟩
  | .ok _ =>
    match env.primary with
    | .ok (some cid) => ⟨.ok cid, eraseAssoc fs1 tempFilePath⟩
    | .ok none =>
      uploadInfuraFallback env fs1 tempFilePath
        "Failed to retrieve CID from upload response"
    | .error m => uploadInfuraFallback env fs1 tempFilePath m

/-- The freshness test of `findFastestGateway` fails for the persisted
speed-test record (absent, expired, or with a falsy gateway field). -/
def speedTestStale (env : NetEnv) (st : CacheState) : Prop :=
  ∀ r, st.speedTest = some r →
    ¬((r.timestamp : Int) > (env.now : Int) - 3600000 ∧ r.fastestGateway ≠ "")

/-- The spec scenario configuration: `maxItemCount = 2`, all other limits as
in the source. -/
def cfgItems2 : CacheConfig :=
  { maxCacheSize := 50 * 1024 * 1024
    maxCacheAge := 7 * 24 * 60 * 60 * 1000
    maxCacheItems := 2 }

/-- `maxItemCount = 2` together with a 10-byte size cap, so that an insert
can actually trip the size-triggered cleanup. -/
def cfgTiny : CacheConfig :=
  { maxCacheSize := 10
    maxCacheAge := 7 * 24 * 60 * 60 * 1000
    maxCacheItems := 2 }

/-- A state whose blob store holds the empty string under cid `c` and whose
preferred-gateway pointer is set. -/
def emptyBlobSt : CacheState :=
  { emptyState with blobs := [("c", "")], preferred := some "P" }

/-- A state with one non-empty cached blob. -/
def cachedSt : CacheState :=
  { emptyState with blobs := [("x", "AA==")] }

/-- A state with a preferred-gateway pointer and an empty cache. -/
def prefSt : CacheState :=
  { emptyState with preferred := some "P" }

/-- A state with a persisted counter but no index entry for any cid. -/
def untrackedSt : CacheState :=
  { emptyState with cacheSize := some 7 }

/-- Environment in which every probe times out and every download attempt
throws without having reported progress. -/
def allFailEnv : NetEnv :=
  { now := 0, probe := fun _ => none
    attempt := fun _ => ⟨[], .fail "network error"⟩ }

/-- All attempts fail, each with a distinguishable error message (first
variant). -/
def allFailEnvA : NetEnv :=
  { now := 0, probe := fun _ => none
    attempt := fun g => ⟨[], .fail ("errA " ++ g)⟩ }

/-- All attempts fail, each with a distinguishable error message (second
variant). -/
def allFailEnvB : NetEnv :=
  { now := 0, probe := fun _ => none
    attempt := fun g => ⟨[], .fail ("errB " ++ g)⟩ }

/-- Stale persisted probe data: the speed test ran at time `0` and the clock
is two hours later. -/
def staleSt : CacheState :=
  { emptyState with preferred := some "X"
                    speedTest := some ⟨0, "Y", [("Y", 10)]⟩ }

/-- Clock two hours past the stale record of `staleSt`. -/
def staleEnv : NetEnv :=
  { now := 7200000, probe := fun _ => some (200, 10)
    attempt := fun _ => ⟨[], .fail ""⟩ }

/-- The spec probe scenario: gateway 0 answers 200 in 300 ms, gateway 1
answers 200 in 50 ms, every other gateway times out. -/
def probeEnvBAC : NetEnv :=
  { now := 0
    probe := fun i =>
      if i = 0 then some (200, 300) else if i = 1 then some (200, 50) else none
    attempt := fun _ => ⟨[], .fail ""⟩ }

/-- The speed-test record produced by the probe scenario of `probeEnvBAC`:
gateway 1 ranked first at 50 ms, gateway 0 second at 300 ms. -/
def bacRecord : SpeedRecord :=
  { timestamp := 0
    fastestGateway := "https://gateway.pinata.cloud/ipfs"
    allResults := [("https://gateway.pinata.cloud/ipfs", 50),
                   ("https://ipfs.io/ipfs", 300)] }

/-- The preferred gateway fails after reporting a half-finished download
(1 of 2 expected bytes); every fallback gateway fails immediately. -/
def prefFailEnv : NetEnv :=
  { now := 0, probe := fun _ => none
    attempt := fun g =>
      if g = "P" then ⟨[(1, 2)], .fail "e"⟩ else ⟨[], .fail "e"⟩ }

/-- Every gateway fails except the last of `IPFS_GATEWAYS`, which serves
`DATA`. -/
def c5env : NetEnv :=
  { now := 0, probe := fun _ => none
    attempt := fun g =>
      if g = "https://dweb.link/ipfs" then ⟨[], .ok "DATA"⟩
      else ⟨[], .fail "e"⟩ }

/-- Upload environment whose `getInfoAsync` call rejects right after the
staging file was written. -/
def leakEnv : UpEnv :=
  { getInfo := .error "getInfoAsync failed", primary := .ok (some "QmCID")
    hasInfuraCreds := false, infura := .error "unused" }

/-! ## Helper lemmas -/

theorem lookup_eraseAssoc {β : Type} (l : List (String × β)) (k : String) :
    (eraseAssoc l k).lookup k = none := by
  induction l with
  | nil => rfl
  | cons p t ih =>
    by_cases h : p.1 = k
    · simpa [eraseAssoc, List.filter_cons, h] using ih
    · simp only [eraseAssoc, List.filter_cons] at ih ⊢
      rw [if_pos (by simpa using bne_iff_ne.mpr h)]
      simpa [List.lookup, beq_eq_false_iff_ne.mpr (Ne.symm h)] using ih

theorem removeCachedFile_blobs (st : CacheState) (cid : String) :
    (removeCachedFile st cid).blobs = eraseAssoc st.blobs cid := by
  simp only [removeCachedFile]
  repeat' split
  all_goals rfl

theorem removeCachedFile_status (st : CacheState) (cid : String) :
    (removeCachedFile st cid).status = eraseAssoc st.status cid := by
  simp only [removeCachedFile]
  repeat' split
  all_goals rfl

theorem removeCachedFile_cacheSize (st : CacheState) (cid : String) :
    (removeCachedFile st cid).cacheSize =
      if 0 < indexedSize st cid then
        (match st.cacheSize with
         | some c => some (c - indexedSize st cid)
         | none => none)
      else st.cacheSize := by
  simp only [removeCachedFile]
  repeat' split
  all_goals simp_all

theorem runSpeedTest_preserves (gws : List String) (env : NetEnv)
    (st : CacheState) :
    (runSpeedTest gws env st).2.1.blobs = st.blobs
    ∧ (runSpeedTest gws env st).2.1.index = st.index
    ∧ (runSpeedTest gws env st).2.1.cacheSize = st.cacheSize
    ∧ (runSpeedTest gws env st).2.1.status = st.status := by
  simp only [runSpeedTest]
  split <;> exact ⟨rfl, rfl, rfl, rfl⟩

theorem findFastestGateway_preserves (gws : List String) (env : NetEnv)
    (st : CacheState) :
    (findFastestGateway gws env st).2.1.blobs = st.blobs
    ∧ (findFastestGateway gws env st).2.1.index = st.index
    ∧ (findFastestGateway gws env st).2.1.cacheSize = st.cacheSize
    ∧ (findFastestGateway gws env st).2.1.status = st.status := by
  simp only [findFastestGateway]
  repeat' split
  all_goals first
    | exact ⟨rfl, rfl, rfl, rfl⟩
    | exact runSpeedTest_preserves gws env st

theorem getPreferredGateway_preserves (gws : List String) (env : NetEnv)
    (st : CacheState) (fr : Bool) :
    (getPreferredGateway gws env st fr).2.1.blobs = st.blobs
    ∧ (getPreferredGateway gws env st fr).2.1.index = st.index
    ∧ (getPreferredGateway gws env st fr).2.1.cacheSize = st.cacheSize
    ∧ (getPreferredGateway gws env st fr).2.1.status = st.status := by
  have hf := findFastestGateway_preserves gws env st
  simp only [getPreferredGateway]
  repeat' split
  all_goals simp_all

theorem fallbackLoop_all_fail (cfg : CacheConfig) (env : NetEnv)
    (cid : String) :
    ∀ (rest : List String) (st : CacheState) (prog : List Nat) (calls i : Nat),
      (∀ g ∈ rest, ((env.attempt g).res).isOk = false) →
      (fallbackLoop cfg env cid st prog calls i rest).out
          = .error exhaustedMsg
      ∧ (fallbackLoop cfg env cid st prog calls i rest).st = st := by
  intro rest
  induction rest with
  | nil => exact fun st prog calls i _ => ⟨rfl, rfl⟩
  | cons g rest ih =>
    intro st prog calls i hall
    have hg : ((env.attempt g).res).isOk = false :=
      hall g (List.mem_cons_self g rest)
    have hrest : ∀ g2 ∈ rest, ((env.attempt g2).res).isOk = false :=
      fun g2 h2 => hall g2 (List.mem_cons_of_mem g h2)
    simp only [fallbackLoop]
    cases hres : (env.attempt g).res with
    | ok data => rw [hres] at hg; exact absurd hg (by simp [ARes.isOk])
    | empty => exact ih st _ _ _ hrest
    | fail m => exact ih st _ _ _ hrest

theorem fallbackLoop_last_ok (cfg : CacheConfig) (env : NetEnv)
    (cid : String) :
    ∀ (rest : List String) (st : CacheState) (prog : List Nat)
      (calls i : Nat) (gL data : String),
      rest.getLast? = some gL →
      (∀ g ∈ rest.dropLast, ((env.attempt g).res).isOk = false) →
      (env.attempt gL).res = .ok data →
      (fallbackLoop cfg env cid st prog calls i rest).out = .ok data
      ∧ (fallbackLoop cfg env cid st prog calls i rest).st.preferred
          = some gL := by
  intro rest
  induction rest with
  | nil => intro st prog calls i gL data hlast; exact absurd hlast (by simp)
  | cons g rest ih =>
    intro st prog calls i gL data hlast hdrop hok
    cases rest with
    | nil =>
      have hg : gL = g := by
        rw [List.getLast?_singleton] at hlast
        exact (Option.some_inj.mp hlast).symm
      subst hg
      simp only [fallbackLoop]
      rw [hok]
      exact ⟨rfl, rfl⟩
    | cons g2 rest2 =>
      have hg : ((env.attempt g).res).isOk = false := by
        apply hdrop
        rw [List.dropLast_cons₂]
        exact List.mem_cons_self g _
      have hlast2 : (g2 :: rest2).getLast? = some gL := by
        rwa [List.getLast?_cons_cons] at hlast
      have hdrop2 : ∀ g3 ∈ (g2 :: rest2).dropLast,
          ((env.attempt g3).res).isOk = false := by
        intro g3 h3
        apply hdrop
        rw [List.dropLast_cons₂]
        exact List.mem_cons_of_mem g h3
      simp only [fallbackLoop]
      cases hres : (env.attempt g).res with
      | ok data2 => rw [hres] at hg; exact absurd hg (by simp [ARes.isOk])
      | empty => exact ih st _ _ _ gL data hlast2 hdrop2 hok
      | fail m => exact ih st _ _ _ gL data hlast2 hdrop2 hok

theorem mapFallbackEvents_le (evs : List (Nat × Nat)) :
    ∀ x ∈ mapFallbackEvents evs, x ≤ 100 := by
  intro x hx
  simp only [mapFallbackEvents, List.mem_map] at hx
  obtain ⟨p, _, rfl⟩ := hx
  exact le_trans (min_le_right _ _) (by norm_num)

theorem mapPreferredEvents_le (evs : List (Nat × Nat)) :
    ∀ x ∈ mapPreferredEvents evs, x ≤ 100 := by
  intro x hx
  simp only [mapPreferredEvents, List.mem_map] at hx
  obtain ⟨p, _, rfl⟩ := hx
  exact le_trans (min_le_right _ _) (by norm_num)

theorem fallbackLoop_progress_le (cfg : CacheConfig) (env : NetEnv)
    (cid : String) :
    ∀ (rest : List String) (st : CacheState) (prog : List Nat)
      (calls i : Nat),
      (∀ x ∈ prog, x ≤ 100) → i + rest.length ≤ 26 →
      ∀ x ∈ (fallbackLoop cfg env cid st prog calls i rest).progress,
        x ≤ 100 := by
  intro rest
  induction rest with
  | nil =>
    intro st prog calls i hp _
    exact hp
  | cons g rest ih =>
    intro st prog calls i hp hlen
    have hev := mapFallbackEvents_le (env.attempt g).events
    have hblip : 20 + (i + 1) * 3 ≤ 100 := by
      simp only [List.length_cons] at hlen
      omega
    have hlen2 : (i + 1) + rest.length ≤ 26 := by
      simp only [List.length_cons] at hlen
      omega
    simp only [fallbackLoop]
    cases hres : (env.attempt g).res with
    | ok data =>
      intro x hx
      simp only [List.mem_append, List.mem_cons, List.not_mem_nil,
        or_false] at hx
      rcases hx with (h | h) | h | h
      · exact hp x h
      · exact hev x h
      · omega
      · omega
    | empty =>
      refine ih st _ _ _ ?_ hlen2
      intro x hx
      simp only [List.mem_append, List.mem_cons, List.not_mem_nil,
        or_false] at hx
      rcases hx with (h | h) | h | h
      · exact hp x h
      · exact hev x h
      · omega
      · omega
    | fail m =>
      refine ih st _ _ _ ?_ hlen2
      intro x hx
      simp only [List.mem_append, List.mem_cons, List.not_mem_nil,
        or_false] at hx
      rcases hx with (h | h) | h
      · exact hp x h
      · exact hev x h
      · omega

theorem mem_probeResults (gws : List String) (env : NetEnv) (g : String)
    (t : Nat) :
    (g, t) ∈ probeResults gws env ↔
      ∃ j s, gws.get? j = some g ∧ env.probe j = some (s, t)
        ∧ (s = 200 ∨ s = 206) := by
  simp only [probeResults, List.mem_filterMap]
  constructor
  · rintro ⟨⟨j, g2⟩, hmem, hf⟩
    have hj : gws.get? j = some g2 := by
      have := List.mk_mem_enum_iff_getElem?.mp hmem
      simpa [List.get?_eq_getElem?] using this
    cases hp : env.probe j with
    | none => rw [hp] at hf; exact absurd hf (by simp)
    | some p =>
      obtain ⟨s, l⟩ := p
      rw [hp] at hf
      dsimp only at hf
      by_cases hok : s = 200 ∨ s = 206
      · rw [if_pos hok] at hf
        obtain ⟨hg2, hl⟩ : g2 = g ∧ l = t := by
          simpa using hf
        subst hg2
        subst hl
        exact ⟨j, s, hj, hp, hok⟩
      · rw [if_neg hok] at hf; exact absurd hf (by simp)
  · rintro ⟨j, s, hj, hp, hok⟩
    refine ⟨(j, g), List.mk_mem_enum_iff_getElem?.mpr ?_, ?_⟩
    · simpa [List.get?_eq_getElem?] using hj
    · rw [hp]
      dsimp only
      rw [if_pos hok]

/-! ## Claim theorems -/

/-- C2: the claimed invariant (sum of index sizes equals the persisted
counter) is violated by the code on a re-insert of an already tracked cid:
`trackCachedFile` replaces the index entry but adds the size to the counter
unconditionally, although its own comment says the size is added only "if
not already tracked".  Inserting cid `a` of size 10 twice from the empty
state leaves an index summing to 10 while the counter reads 20. -/
theorem trackCachedFile_reinsert_breaks_size_invariant :
    indexSizeSum (trackCachedFile CACHE_CONFIG 1 emptyState "a" 10) = 10 ∧
    (trackCachedFile CACHE_CONFIG 1 emptyState "a" 10).cacheSize = some 10 ∧
    indexSizeSum (trackCachedFile CACHE_CONFIG 2
      (trackCachedFile CACHE_CONFIG 1 emptyState "a" 10) "a" 10) = 10 ∧
    (trackCachedFile CACHE_CONFIG 2
      (trackCachedFile CACHE_CONFIG 1 emptyState "a" 10) "a" 10).cacheSize
      = some 20 :=
  ⟨rfl, rfl, rfl, rfl⟩

/-- C3 counterexample: with `maxItemCount = 2` and the other limits as in the
source, inserting cid1 at t=1, cid2 at t=2 and cid3 at t=3 (1 byte each)
leaves all three entries in the index — `trackCachedFile` invokes
`cleanCache` only when the running size exceeds `maxTotalSizeBytes`, never on
item-count pressure alone, so the claimed index `{cid2, cid3}` is not what
the code produces. -/
theorem trackCachedFile_count_pressure_no_evict :
    cfgItems2.maxCacheItems = 2 ∧
    ((trackCachedFile cfgItems2 3 (trackCachedFile cfgItems2 2
        (trackCachedFile cfgItems2 1 emptyState "cid1" 1) "cid2" 1)
        "cid3" 1).index).map (fun p => p.1) = ["cid1", "cid2", "cid3"] :=
  ⟨rfl, rfl⟩

/-- C3 (amended): an insert triggers eviction only when it pushes the
running size counter above `maxTotalSizeBytes`; when the counter stays within
the cap the insert only writes the index entry and the counter.  When the
trigger does fire the oldest entries are evicted until the item count is
within `maxItemCount`: with `maxItemCount = 2`, `maxTotalSizeBytes = 10` and
5-byte inserts of cid1 (t=1), cid2 (t=2), cid3 (t=3), the index left behind
is exactly {cid2, cid3}. -/
theorem trackCachedFile_evicts_on_size_trigger :
    (∀ (cfg : CacheConfig) (now : Nat) (st : CacheState) (cid : String)
       (size : Nat),
       st.cacheSize.getD 0 + size ≤ cfg.maxCacheSize →
       trackCachedFile cfg now st cid size
         = { st with
              index := setAssoc st.index cid { size := size, timestamp := now }
              cacheSize := some (st.cacheSize.getD 0 + size) })
    ∧ (trackCachedFile cfgTiny 3 (trackCachedFile cfgTiny 2
        (trackCachedFile cfgTiny 1 emptyState "cid1" 5) "cid2" 5)
        "cid3" 5).index
        = [("cid2", ⟨5, 2⟩), ("cid3", ⟨5, 3⟩)]
    ∧ (trackCachedFile cfgTiny 3 (trackCachedFile cfgTiny 2
        (trackCachedFile cfgTiny 1 emptyState "cid1" 5) "cid2" 5)
        "cid3" 5).cacheSize = some 10 := by
  refine ⟨?_, rfl, rfl⟩
  intro cfg now st cid size h
  simp only [trackCachedFile]
  rw [if_neg (by omega)]

/-- Witness for the amended C3 theorem at a concrete in-bound insert. -/
theorem trackCachedFile_evicts_on_size_trigger_witness :
    trackCachedFile CACHE_CONFIG 5 emptyState "w" 7
      = { emptyState with
            index := setAssoc emptyState.index "w" { size := 7, timestamp := 5 }
            cacheSize := some 7 } :=
  trackCachedFile_evicts_on_size_trigger.1 CACHE_CONFIG 5 emptyState "w" 7
    (by decide)

/-- C1 counterexample: the cid `c` has a blob present in the cache store (the
empty string), yet `downloadFromFilecoin("c", skipCache := false)` performs
six network calls (one preferred attempt plus five fallback attempts) and
returns the exhaustion error instead of the stored bytes — the source tests
the cached value for JS truthiness, so an empty stored blob is treated as a
miss. -/
theorem cacheHit_empty_blob_fetches_network :
    emptyBlobSt.blobs.lookup "c" = some "" ∧
    (downloadFromFilecoin IPFS_GATEWAYS CACHE_CONFIG allFailEnv emptyBlobSt
      "c" false).netCalls = 6 ∧
    (downloadFromFilecoin IPFS_GATEWAYS CACHE_CONFIG allFailEnv emptyBlobSt
      "c" false).out = .error exhaustedMsg :=
  ⟨rfl, rfl, rfl⟩

/-- C9: the claim that the staging file is removed on every exit path of
`uploadToFilecoin` is right about the intended behaviour but wrong about the
code: when `FileSystem.getInfoAsync` rejects after the temp file has been
written and before the primary request is issued, the error propagates
through the outer handler, which re-wraps the message but performs no
cleanup, so the staging file is left behind. -/
theorem uploadToFilecoin_getInfo_failure_leaks_temp :
    (uploadToFilecoin leakEnv [] "ZGF0YQ==" "doc.pdf").out
      = .error "IPFS upload failed: getInfoAsync failed" ∧
    (uploadToFilecoin leakEnv [] "ZGF0YQ==" "doc.pdf").fs.lookup
      (cacheDirectory ++ "doc.pdf") = some "ZGF0YQ==" :=
  ⟨rfl, rfl⟩

/-- C10: `removeCachedFile` leaves the running counter at
`max(0, previous − indexed size)`, where the indexed size is 0 for an
untracked cid (so the counter never goes negative and an untracked removal
leaves it untouched), and unconditionally deletes the blob and status
records of the cid. -/
theorem removeCachedFile_counter_spec (st : CacheState) (cid : String) :
    ((removeCachedFile st cid).cacheSize.getD 0 : Int)
        = max 0 ((st.cacheSize.getD 0 : Int) - (indexedSize st cid : Int))
    ∧ (0 : Int) ≤ ((removeCachedFile st cid).cacheSize.getD 0 : Int)
    ∧ (removeCachedFile st cid).blobs.lookup cid = none
    ∧ (removeCachedFile st cid).status.lookup cid = none
    ∧ (st.index.lookup cid = none →
        (removeCachedFile st cid).cacheSize = st.cacheSize) := by
  refine ⟨?_, by positivity, ?_, ?_, ?_⟩
  · rw [removeCachedFile_cacheSize]
    by_cases h : 0 < indexedSize st cid
    · rw [if_pos h]
      cases hc : st.cacheSize
      · simp
      · simp
        omega
    · rw [if_neg h]
      have h0 : indexedSize st cid = 0 := by omega
      rw [h0]
      cases st.cacheSize <;> simp
  · rw [removeCachedFile_blobs]; exact lookup_eraseAssoc _ _
  · rw [removeCachedFile_status]; exact lookup_eraseAssoc _ _
  · intro h
    rw [removeCachedFile_cacheSize]
    have h0 : indexedSize st cid = 0 := by simp [indexedSize, h]
    rw [h0]
    simp

/-- Witness for C10: removing an untracked cid from a state whose counter
reads 7 leaves the counter untouched. -/
theorem removeCachedFile_counter_spec_witness :
    (removeCachedFile untrackedSt "z").cacheSize = untrackedSt.cacheSize :=
  (removeCachedFile_counter_spec untrackedSt "z").2.2.2.2 rfl

/-- C5: for every gateway list in which the resolved preferred-gateway
attempt fails, every gateway before the last fails and the last gateway
serves `data`, `downloadFromFilecoin` returns `data` and promotes the last
gateway to the persisted preferred-gateway pointer.  (`dropLast` is the
first K−1 of a K-element list, `getLast?` its Kth element.) -/
theorem downloadFromFilecoin_last_gateway_promotes (gws : List String)
    (cfg : CacheConfig) (env : NetEnv) (st : CacheState)
    (cid gL data : String)
    (hmiss : st.blobs.lookup cid = none)
    (hpref : ((env.attempt
        (getPreferredGateway gws env st false).1).res).isOk = false)
    (hinit : ∀ g ∈ gws.dropLast, ((env.attempt g).res).isOk = false)
    (hlastg : gws.getLast? = some gL)
    (hlast : (env.attempt gL).res = .ok data) :
    (downloadFromFilecoin gws cfg env st cid false).out = .ok data
    ∧ (downloadFromFilecoin gws cfg env st cid false).st.preferred
        = some gL := by
  have hch : cacheHit st cid false = none := by simp [cacheHit, hmiss]
  simp only [downloadFromFilecoin, hch]
  cases hres : (env.attempt (getPreferredGateway gws env st false).1).res with
  | ok data2 => rw [hres] at hpref; exact absurd hpref (by simp [ARes.isOk])
  | empty =>
    have h := fallbackLoop_last_ok cfg env cid gws
      ((getPreferredGateway gws env st false).2.1)
      ([5, 10] ++ mapPreferredEvents
        (env.attempt (getPreferredGateway gws env st false).1).events ++ [90])
      ((getPreferredGateway gws env st false).2.2 + 1) 0 gL data
      hlastg hinit hlast
    exact h
  | fail m =>
    have h := fallbackLoop_last_ok cfg env cid gws
      ((getPreferredGateway gws env st false).2.1)
      ([5, 10] ++ mapPreferredEvents
        (env.attempt (getPreferredGateway gws env st false).1).events)
      ((getPreferredGateway gws env st false).2.2 + 1) 0 gL data
      hlastg hinit hlast
    exact h

/-- Witness for C5: the preferred gateway and the first four gateways fail,
the fifth serves `DATA`, which is returned and promoted. -/
theorem downloadFromFilecoin_last_gateway_promotes_witness :
    (downloadFromFilecoin IPFS_GATEWAYS CACHE_CONFIG c5env prefSt "c"
      false).out = .ok "DATA"
    ∧ (downloadFromFilecoin IPFS_GATEWAYS CACHE_CONFIG c5env prefSt "c"
      false).st.preferred = some "https://dweb.link/ipfs" :=
  downloadFromFilecoin_last_gateway_promotes IPFS_GATEWAYS CACHE_CONFIG c5env
    prefSt "c" "https://dweb.link/ipfs" "DATA" rfl rfl (by decide) rfl rfl

/-- C6 counterexample: when every gateway fails, the thrown error is the
fixed message of the source and carries no context from the last underlying
gateway error: two runs whose gateways fail with different error messages
produce the identical error value, and that value differs from the last
underlying message. -/
theorem downloadFromFilecoin_exhausted_fixed_message :
    (downloadFromFilecoin IPFS_GATEWAYS CACHE_CONFIG allFailEnvA prefSt "c"
      false).out = .error exhaustedMsg ∧
    (downloadFromFilecoin IPFS_GATEWAYS CACHE_CONFIG allFailEnvB prefSt "c"
      false).out =
      (downloadFromFilecoin IPFS_GATEWAYS CACHE_CONFIG allFailEnvA prefSt "c"
        false).out ∧
    exhaustedMsg ≠ "errA https://dweb.link/ipfs" ∧
    (downloadFromFilecoin IPFS_GATEWAYS CACHE_CONFIG allFailEnvA prefSt "c"
      false).st = prefSt :=
  ⟨rfl, rfl, by decide, rfl⟩

/-- C6 (amended): when the preferred-gateway attempt and every gateway in
the list fail, `downloadFromFilecoin` fails with the fixed exhaustion
message (the last underlying gateway error is only logged, not attached as
context) and performs no cache write: the blob store, the index, the running
counter and the status store are all left exactly as they were. -/
theorem downloadFromFilecoin_all_fail_no_cache_write (gws : List String)
    (cfg : CacheConfig) (env : NetEnv) (st : CacheState) (cid : String)
    (hmiss : st.blobs.lookup cid = none)
    (hpref : ((env.attempt
        (getPreferredGateway gws env st false).1).res).isOk = false)
    (hall : ∀ g ∈ gws, ((env.attempt g).res).isOk = false) :
    (downloadFromFilecoin gws cfg env st cid false).out
        = .error exhaustedMsg
    ∧ (downloadFromFilecoin gws cfg env st cid false).st.blobs = st.blobs
    ∧ (downloadFromFilecoin gws cfg env st cid false).st.index = st.index
    ∧ (downloadFromFilecoin gws cfg env st cid false).st.cacheSize
        = st.cacheSize
    ∧ (downloadFromFilecoin gws cfg env st cid false).st.status
        = st.status := by
  have hch : cacheHit st cid false = none := by simp [cacheHit, hmiss]
  have hpres := getPreferredGateway_preserves gws env st false
  simp only [downloadFromFilecoin, hch]
  cases hres : (env.attempt (getPreferredGateway gws env st false).1).res with
  | ok data => rw [hres] at hpref; exact absurd hpref (by simp [ARes.isOk])
  | empty =>
    refine ⟨(fallbackLoop_all_fail cfg env cid gws _ _ _ _ hall).1, ?_, ?_,
      ?_, ?_⟩ <;>
      rw [(fallbackLoop_all_fail cfg env cid gws _ _ _ _ hall).2]
    · exact hpres.1
    · exact hpres.2.1
    · exact hpres.2.2.1
    · exact hpres.2.2.2
  | fail m =>
    refine ⟨(fallbackLoop_all_fail cfg env cid gws _ _ _ _ hall).1, ?_, ?_,
      ?_, ?_⟩ <;>
      rw [(fallbackLoop_all_fail cfg env cid gws _ _ _ _ hall).2]
    · exact hpres.1
    · exact hpres.2.1
    · exact hpres.2.2.1
    · exact hpres.2.2.2

/-- Witness for the amended C6 theorem at a concrete all-fail environment. -/
theorem downloadFromFilecoin_all_fail_no_cache_write_witness :
    (downloadFromFilecoin IPFS_GATEWAYS CACHE_CONFIG allFailEnv prefSt "c"
      false).out = .error exhaustedMsg ∧
    (downloadFromFilecoin IPFS_GATEWAYS CACHE_CONFIG allFailEnv prefSt "c"
      false).st.blobs = prefSt.blobs ∧
    (downloadFromFilecoin IPFS_GATEWAYS CACHE_CONFIG allFailEnv prefSt "c"
      false).st.index = prefSt.index ∧
    (downloadFromFilecoin IPFS_GATEWAYS CACHE_CONFIG allFailEnv prefSt "c"
      false).st.cacheSize = prefSt.cacheSize ∧
    (downloadFromFilecoin IPFS_GATEWAYS CACHE_CONFIG allFailEnv prefSt "c"
      false).st.status = prefSt.status :=
  downloadFromFilecoin_all_fail_no_cache_write IPFS_GATEWAYS CACHE_CONFIG
    allFailEnv prefSt "c" rfl rfl (by intro g _; rfl)

/-- C8 (amended): every value passed to the progress callback during any
execution of `downloadFromFilecoin` over the configured gateway list is an
integer in 0–100 (streamed values are capped at 90, the fixed emissions are
5, 10, 90 and 100, and the retry markers stay at 20 + 3·(i+1) ≤ 35 for the
five-gateway list); the hypothesis that every streamed progress event
carries a positive expected byte count reflects that the source divides by
it.  Monotonicity, however, does not hold across failed attempts (see the
counterexample). -/
theorem downloadFromFilecoin_progress_bounded (cfg : CacheConfig)
    (env : NetEnv) (st : CacheState) (cid : String) (skipCache : Bool)
    (_henv : ∀ g p, p ∈ (env.attempt g).events → 0 < p.2) :
    ∀ x ∈ (downloadFromFilecoin IPFS_GATEWAYS cfg env st cid
        skipCache).progress, x ≤ 100 := by
  simp only [downloadFromFilecoin]
  cases hch : cacheHit st cid skipCache with
  | some d =>
    intro x hx
    simp only [List.mem_cons, List.not_mem_nil, or_false] at hx
    rcases hx with h | h <;> omega
  | none =>
    have hev := mapPreferredEvents_le
      (env.attempt (getPreferredGateway IPFS_GATEWAYS env st false).1).events
    have hlen : 0 + IPFS_GATEWAYS.length ≤ 26 := by decide
    cases hres : (env.attempt
        (getPreferredGateway IPFS_GATEWAYS env st false).1).res with
    | ok data =>
      intro x hx
      simp only [List.cons_append, List.nil_append, List.mem_cons,
        List.mem_append, List.not_mem_nil, or_false] at hx
      rcases hx with h | h | h | h | h
      · omega
      · omega
      · exact hev x h
      · omega
      · omega
    | empty =>
      refine fallbackLoop_progress_le cfg env cid IPFS_GATEWAYS _ _ _ _ ?_
        hlen
      intro x hx
      simp only [List.cons_append, List.nil_append, List.mem_cons,
        List.mem_append, List.not_mem_nil, or_false] at hx
      rcases hx with h | h | h | h
      · omega
      · omega
      · exact hev x h
      · omega
    | fail m =>
      refine fallbackLoop_progress_le cfg env cid IPFS_GATEWAYS _ _ _ _ ?_
        hlen
      intro x hx
      simp only [List.cons_append, List.nil_append, List.mem_cons,
        List.mem_append, List.not_mem_nil, or_false] at hx
      rcases hx with h | h | h
      · omega
      · omega
      · exact hev x h

/-- Witness for the amended C8 theorem: in a concrete all-fail run the value
35 is emitted and is within the bound. -/
theorem downloadFromFilecoin_progress_bounded_witness :
    35 ∈ (downloadFromFilecoin IPFS_GATEWAYS CACHE_CONFIG allFailEnv prefSt
      "c" false).progress ∧ 35 ≤ 100 :=
  ⟨by decide,
   downloadFromFilecoin_progress_bounded CACHE_CONFIG allFailEnv prefSt "c"
     false (by intro g p hp; exact absurd hp (List.not_mem_nil p)) 35
     (by decide)⟩

/-- C7: a gateway enters the speed-test ranking exactly when its probe
returned HTTP 200 or 206 (within the 5-second timeout, which the
environment hypothesis encodes: any observed response arrived inside the
timeout); with the simulated latencies gateway0 : 300 ms, gateway1 : 50 ms
and everything else timing out, the probe ranks gateway1 first and gateway0
second and excludes the rest, returning gateway1; and when zero gateways
respond the probe returns the first configured gateway without persisting
anything, instead of failing. -/
theorem findFastestGateway_probe_spec :
    (∀ (env : NetEnv) (i : Nat) (g : String),
        IPFS_GATEWAYS.get? i = some g →
        (∀ j s l, env.probe j = some (s, l) → l ≤ 5000) →
        ((∃ t, (g, t) ∈ probeResults IPFS_GATEWAYS env) ↔
          (∃ s t, env.probe i = some (s, t) ∧ (s = 200 ∨ s = 206))))
    ∧ (∀ st : CacheState, st.speedTest = none →
        findFastestGateway IPFS_GATEWAYS probeEnvBAC st
          = ("https://gateway.pinata.cloud/ipfs",
             { st with speedTest := some bacRecord }, 5))
    ∧ (∀ (env : NetEnv) (st : CacheState), st.speedTest = none →
        (∀ i s t, env.probe i = some (s, t) → ¬(s = 200 ∨ s = 206)) →
        findFastestGateway IPFS_GATEWAYS env st
          = (IPFS_GATEWAY_URL, st, IPFS_GATEWAYS.length)) := by
  refine ⟨?_, ?_, ?_⟩
  · intro env i g hi _hto
    constructor
    · rintro ⟨t, hmem⟩
      obtain ⟨j, s, hj, hp, hok⟩ := (mem_probeResults _ _ _ _).mp hmem
      have hlen : i < IPFS_GATEWAYS.length := by
        rw [List.get?_eq_getElem?] at hi
        exact (List.getElem?_eq_some_iff.mp hi).1
      have hij : i = j := by
        refine List.getElem?_inj hlen (by decide) ?_
        rw [← List.get?_eq_getElem?, ← List.get?_eq_getElem?, hi, hj]
      exact ⟨s, t, hij ▸ hp, hok⟩
    · rintro ⟨s, t, hp, hok⟩
      exact ⟨t, (mem_probeResults _ _ _ _).mpr ⟨i, s, hi, hp, hok⟩⟩
  · intro st hst
    simp only [findFastestGateway, hst]
    rfl
  · intro env st hst hnone
    have hres : probeResults IPFS_GATEWAYS env = [] := by
      simp only [probeResults]
      rw [List.filterMap_eq_nil_iff]
      rintro ⟨j, g⟩ _hmem
      cases hp : env.probe j with
      | none => rfl
      | some p =>
        obtain ⟨s, t⟩ := p
        dsimp only
        rw [if_neg (hnone j s t hp)]
    simp only [findFastestGateway, hst, runSpeedTest, hres]
    rfl

/-- Witness for C7, instantiating the probe scenario. -/
theorem findFastestGateway_probe_spec_witness :
    findFastestGateway IPFS_GATEWAYS probeEnvBAC emptyState
      = ("https://gateway.pinata.cloud/ipfs",
         { emptyState with speedTest := some bacRecord }, 5) :=
  findFastestGateway_probe_spec.2.1 emptyState rfl

/-- C1 (amended): for every cid whose stored blob is a non-empty string,
`downloadFromFilecoin(cid, skipCache := false)` performs zero network calls,
returns exactly the stored bytes, reports progress 5 then 100, and leaves
the persisted state untouched.  (The source treats an empty stored string as
a miss, so non-emptiness is required.) -/
theorem downloadFromFilecoin_cacheHit_returns_cached (gws : List String)
    (cfg : CacheConfig) (env : NetEnv) (st : CacheState) (cid d : String)
    (hd : st.blobs.lookup cid = some d) (hne : d ≠ "") :
    downloadFromFilecoin gws cfg env st cid false
      = ⟨.ok d, [5, 100], st, 0⟩ := by
  have hch : cacheHit st cid false = some d := by
    simp [cacheHit, hd, hne]
  simp [downloadFromFilecoin, hch]

/-- Witness for the amended C1 theorem at a concrete cached state. -/
theorem downloadFromFilecoin_cacheHit_returns_cached_witness :
    downloadFromFilecoin IPFS_GATEWAYS CACHE_CONFIG allFailEnv cachedSt "x"
      false = ⟨.ok "AA==", [5, 100], cachedSt, 0⟩ :=
  downloadFromFilecoin_cacheHit_returns_cached IPFS_GATEWAYS CACHE_CONFIG
    allFailEnv cachedSt "x" "AA==" rfl (by decide)

/-- C4 counterexample: the state persists a preferred-gateway pointer `X`
whose backing probe record was measured at time 0, the clock reads two hours
later (so any measurement is over an hour old), yet
`getPreferredGateway(forceRefresh := false)` returns `X` with zero network
calls and no re-probe — the source returns the stored pointer without any
freshness check. -/
theorem getPreferredGateway_returns_stale_pointer :
    staleSt.speedTest = some ⟨0, "Y", [("Y", 10)]⟩ ∧
    (0 : Int) ≤ (staleEnv.now : Int) - 3600000 ∧
    getPreferredGateway IPFS_GATEWAYS staleEnv staleSt false
      = ("X", staleSt, 0) :=
  ⟨rfl, by decide, rfl⟩

/-- C4 (amended): with `forceRefresh = false`, a persisted (truthy)
preferred-gateway pointer is returned unconditionally with no freshness
check and no network activity; only when no pointer is persisted does the
operation consult `findFastestGateway`, which returns the cached probe
result when it is fresh (less than one hour old) and otherwise re-probes
every configured gateway. -/
theorem getPreferredGateway_pointer_unconditional :
    (∀ (gws : List String) (env : NetEnv) (st : CacheState) (g : String),
        st.preferred = some g → g ≠ "" →
        getPreferredGateway gws env st false = (g, st, 0))
    ∧ (∀ (gws : List String) (env : NetEnv) (st : CacheState)
         (r : SpeedRecord),
        st.preferred = none → st.speedTest = some r →
        (r.timestamp : Int) > (env.now : Int) - 3600000 →
        r.fastestGateway ≠ "" →
        getPreferredGateway gws env st false
          = (r.fastestGateway,
             { st with preferred := some r.fastestGateway }, 0))
    ∧ (∀ (gws : List String) (env : NetEnv) (st : CacheState),
        st.preferred = none → speedTestStale env st →
        (getPreferredGateway gws env st false).2.2 = gws.length) := by
  refine ⟨?_, ?_, ?_⟩
  · intro gws env st g hp hg
    simp [getPreferredGateway, hp, hg]
  · intro gws env st r hp hr hfresh hne
    simp [getPreferredGateway, findFastestGateway, hp, hr, hfresh, hne]
  · intro gws env st hp hstale
    have hcalls : ∀ s, (runSpeedTest gws env s).2.2 = gws.length := by
      intro s
      simp only [runSpeedTest]
      split
      · rfl
      · rfl
    simp only [getPreferredGateway, hp, Bool.false_eq_true, if_false]
    cases hr : st.speedTest with
    | none => simp [findFastestGateway, hr, hcalls]
    | some r =>
      have := hstale r hr
      simp [findFastestGateway, hr, this, hcalls]

/-- Witness for the amended C4 theorem: the stale pointer of `staleSt` is
returned as-is. -/
theorem getPreferredGateway_pointer_unconditional_witness :
    getPreferredGateway IPFS_GATEWAYS staleEnv staleSt false
      = ("X", staleSt, 0) :=
  getPreferredGateway_pointer_unconditional.1 IPFS_GATEWAYS staleEnv staleSt
    "X" rfl (by decide)

/-- C8 counterexample: a run in which the preferred gateway fails after
reporting half of the expected bytes (mapped to 50 %) and every fallback
gateway fails produces the progress sequence 5, 10, 50, 23, 26, 29, 32, 35,
which is not monotonically non-decreasing (50 is followed by 23). -/
theorem downloadFromFilecoin_progress_not_monotone :
    (downloadFromFilecoin IPFS_GATEWAYS CACHE_CONFIG prefFailEnv prefSt "c"
      false).progress = [5, 10, 50, 23, 26, 29, 32, 35] ∧
    ¬ List.Pairwise (fun a b => a ≤ b) [5, 10, 50, 23, 26, 29, 32, 35] :=
  ⟨rfl, by decide⟩

end IpfsService
